import Mathlib

/-!
Verification of the capture/persist/display pipeline in `src/main.rs` of
`rust-slint-opencv`.

The program opens a camera, spawns a capture thread (`start`) that loops:
poll the exit channel, read a BGR frame, convert it to RGBA with
`cvt_color`, send the RGBA bytes on an mpsc channel, and append the BGR
frame to a `VideoWriter` sink when its width is positive.  The main thread
drives a Slint window whose render callback does a non-blocking
`try_recv` on the frame channel, copies a received frame into a fixed
buffer, and builds an image from that buffer.  On window close, main sends
the exit signal, joins the capture thread, and prints the join result.

We embed these pieces as pure Lean functions and prove/refute the frozen
claims about them.
-/

namespace SlintCv

/-- A captured frame: reported width and height (signed, as OpenCV reports
`i32` dimensions that may in principle be non-positive) and its pixel
bytes. -/
structure Frame where
  width : Int
  height : Int
  data : List Nat
  deriving Repr, DecidableEq

/-- Model of OpenCV's `cvt_color` with `COLOR_BGR2RGBA` on packed bytes:
each B,G,R triple becomes R,G,B,255 (alpha synthesized fully opaque). -/
def bgrToRgbaBytes : List Nat → List Nat
  | b :: g :: r :: rest => r :: g :: b :: 255 :: bgrToRgbaBytes rest
  | _ => []

/-- The converted frame handed to distribution: same dimensions, RGBA
bytes (`cvt_color(&frame_bgr, &mut frame_rgba, COLOR_BGR2RGBA, 0)`). -/
def cvtColorBGR2RGBA (f : Frame) : Frame :=
  ⟨f.width, f.height, bgrToRgbaBytes f.data⟩

/-- Model of `std::sync::mpsc::channel()` as created at `main.rs:82`:
an unbounded FIFO queue of undelivered messages. -/
structure Channel (α : Type) where
  queue : List α
  deriving Repr, DecidableEq

/-- A freshly created channel holds nothing. -/
def Channel.empty {α : Type} : Channel α := ⟨[]⟩

/-- Model of `Sender::send`: enqueue at the back; nothing is dropped or
overwritten. -/
def Channel.send {α : Type} (c : Channel α) (a : α) : Channel α :=
  ⟨c.queue ++ [a]⟩

/-- Model of `Receiver::try_recv`: non-blocking; takes the OLDEST pending message
from the front, or reports the channel empty. -/
def Channel.tryRecv {α : Type} (c : Channel α) : Option α × Channel α :=
  match c.queue with
  | [] => (none, c)
  | x :: xs => (some x, ⟨xs⟩)

/-!
Model of the capture loop (`start`, `main.rs:127-161`).

Each iteration of the spawned loop, in source order:
1. `exit_receiver.try_recv()` — if a signal is pending, `break`;
2. `camera.read(&mut frame_bgr)?` — a read error exits the loop with `Err`;
3. `cvt_color(...)?` — a conversion error exits the loop with `Err`;
4. `frame_sender.send(frame_rgba.data_bytes()?.to_vec())?` — a failure
   (receiver gone / data access error) exits the loop with `Err`;
5. `if frame_bgr.size().unwrap().width > 0 { let _ = out.write(&frame_bgr); }`
   — append the UNCONVERTED frame to the sink, only when width > 0; the
   write result is discarded.
On every return of the closure (break or `?`), the `VideoWriter` is
dropped, which releases (closes/finalizes) the sink exactly then.

We model one iteration's external events as an `IterInput` and run the
loop over a finite schedule of such events.
-/

/-- The externally determined outcome of one loop iteration. -/
inductive IterInput where
  /-- Event where `exit_receiver.try_recv()` returned `Ok(())` at the top of the
  iteration. -/
  | exitSignal : IterInput
  /-- No exit signal; the camera read, the color conversion and the
  channel send all succeed for frame `f`. -/
  | read (f : Frame) : IterInput
  /-- No exit signal; `camera.read` fails. -/
  | readErr : IterInput
  /-- No exit signal; the read succeeds but `cvt_color` fails. -/
  | cvtErr : IterInput
  /-- No exit signal; read and conversion succeed for frame `f` but the
  send (or `data_bytes`) fails. -/
  | sendErr (f : Frame) : IterInput
  deriving Repr, DecidableEq

deriving instance DecidableEq for Except

/-- Whether the capture loop has returned, and with what result. -/
inductive CaptureOutcome where
  /-- The loop is still running (its schedule of events is not over). -/
  | running : CaptureOutcome
  /-- The closure returned: `Except.ok ()` on `break`, `Except.error ()`
  when a `?` propagated a per-iteration error. -/
  | finished (r : Except Unit Unit) : CaptureOutcome
  deriving Repr, DecidableEq

/-- Observable trace of a capture-loop run. -/
structure CaptureResult where
  /-- Frames appended to the persistence sink, in order. -/
  written : List Frame
  /-- Byte vectors sent on the distribution channel, in order. -/
  sent : List (List Nat)
  /-- Number of completed color conversions. -/
  conversions : Nat
  /-- Number of times the sink was closed (`VideoWriter` dropped). -/
  closes : Nat
  /-- Number of loop iterations entered. -/
  iters : Nat
  /-- Whether and how the loop has returned. -/
  outcome : CaptureOutcome
  deriving Repr, DecidableEq

/-- Run the capture loop of `start` over a schedule of iteration events.
Mirrors `main.rs:141-158`; the sink close is the drop of `out` on each
exit path. -/
def runCapture : List IterInput → CaptureResult
  | [] => ⟨[], [], 0, 0, 0, .running⟩
  | .exitSignal :: _ => ⟨[], [], 0, 1, 1, .finished (Except.ok ())⟩
  | .readErr :: _ => ⟨[], [], 0, 1, 1, .finished (Except.error ())⟩
  | .cvtErr :: _ => ⟨[], [], 0, 1, 1, .finished (Except.error ())⟩
  | .sendErr _ :: _ => ⟨[], [], 1, 1, 1, .finished (Except.error ())⟩
  | .read f :: rest =>
      let r := runCapture rest
      ⟨(if 0 < f.width then [f] else []) ++ r.written,
       (cvtColorBGR2RGBA f).data :: r.sent,
       r.conversions + 1, r.closes, r.iters + 1, r.outcome⟩

/-!
Model of the presentation pump (`main.rs:96-107`).

Here `frame_data` is allocated once as `vec![0; width*height*4]`.  The render
closure does `try_recv`; on `Ok(bytes)` it runs
`frame_data.copy_from_slice(&bytes)`, which PANICS when the lengths
differ; then it builds an image of the fixed `(width, height)` from
`frame_data`.  We model the panic as `none`.
-/

/-- The image handed to the rendering surface: fixed dimensions plus the
pixel bytes (`Image::from_rgba8(SharedPixelBuffer::clone_from_slice(...))`). -/
structure ImageModel where
  width : Nat
  height : Nat
  bytes : List Nat
  deriving Repr, DecidableEq

/-- Model of slice `copy_from_slice`: total overwrite when lengths match, panic
(`none`) otherwise — never a partial copy. -/
def copyFromSlice (dst src : List Nat) : Option (List Nat) :=
  if src.length = dst.length then some src else none

/-- Presentation-side state: the receiving end of the distribution
channel and the fixed working buffer `frame_data`. -/
structure RenderState where
  chan : Channel (List Nat)
  frameData : List Nat
  deriving Repr, DecidableEq

/-- The initial working buffer: `vec![0; (frame_width * frame_height * 4.0) as usize]`. -/
def initFrameData (w h : Nat) : List Nat := List.replicate (w * h * 4) 0

/-- Presentation state at session start: empty channel, zeroed buffer. -/
def initRenderState (w h : Nat) : RenderState :=
  ⟨Channel.empty, initFrameData w h⟩

/-- One render tick (the `render` closure): non-blocking receive; on a
frame, overwrite the buffer in place (panicking on size mismatch =
`none`); always produce an image of the fixed dimensions from the
buffer. -/
def render (w h : Nat) (s : RenderState) : Option (RenderState × ImageModel) :=
  match Channel.tryRecv s.chan with
  | (none, c) => some (⟨c, s.frameData⟩, ⟨w, h, s.frameData⟩)
  | (some bytes, c) =>
      match copyFromSlice s.frameData bytes with
      | none => none
      | some d => some (⟨c, d⟩, ⟨w, h, d⟩)

/-- Iterate render ticks, propagating a panic. -/
def renderTicks (w h : Nat) : Nat → RenderState → Option RenderState
  | 0, s => some s
  | n + 1, s =>
      match render w h s with
      | none => none
      | some (s', _) => renderTicks w h n s'

/-!
Model of the whole process (`main`, `main.rs:50-118`).

Source order in `main`:
1. `VideoCapture::new(CAMERA_INDEX, CAP_ANY)?` — an error makes `main`
   return `Err` at once (failure exit with a diagnostic);
2. `is_opened` check — `panic!("Unable to open default camera!")` when
   false;
3. query width/height/fps, create the window and timer, create both
   channels;
4. `start(...)` spawns the capture thread; the `VideoWriter::new`
   (`.expect("Can not open video writer")`) runs INSIDE that thread, so
   its failure panics only the capture thread;
5. `window.run().unwrap()` — the window is shown and main blocks until
   the user closes it;
6. `exit_sender.send(())?` — this fails exactly when the capture thread
   has already returned or panicked (its `exit_receiver` was dropped),
   making `main` return `Err` without reaching the join;
7. `task.join().unwrap()`, then
   `println!("Camera Stopped And File Closed {:?}", result)` — only
   reached when the send succeeded, i.e. the loop was still running; it
   then observes the signal on its next poll and returns `Ok(())`.

`MainEnv.loopInputs` is the schedule of capture iterations that occur
before the window is closed; `runCapture` on it tells whether the thread
is still alive at that moment.
-/

/-- Externally determined events of one process run. -/
structure MainEnv where
  /-- `VideoCapture::new` returned `Ok`. -/
  deviceNewOk : Bool
  /-- `VideoCapture::is_opened` returned `true`. -/
  deviceOpened : Bool
  /-- `VideoWriter::new` (inside the spawned thread) returned `Ok`. -/
  sinkOpenOk : Bool
  /-- Capture-loop iteration events occurring before the window closes. -/
  loopInputs : List IterInput
  deriving Repr, DecidableEq

/-- Observables of one process run. -/
structure ProcessResult where
  /-- Whether `start` was reached and the capture thread spawned. -/
  threadSpawned : Bool
  /-- Whether `VideoWriter::new` was ever attempted (output file path
  touched). -/
  sinkOpenAttempted : Bool
  /-- Whether the window was shown (`window.run()`). -/
  windowShown : Bool
  /-- The capture thread's trace over the whole run. -/
  capture : CaptureResult
  /-- The join result printed by
  `println!("Camera Stopped And File Closed {:?}", _)`, when reached. -/
  joinDiagnostic : Option (Except Unit Unit)
  /-- Holds (`true`) iff the process exits with a success status
  (`main` returns `Ok` and no thread on the main path panicked). -/
  exitOk : Bool
  deriving Repr, DecidableEq

/-- Capture trace of a thread that never entered the loop. -/
def noCapture : CaptureResult := ⟨[], [], 0, 0, 0, .running⟩

/-- Run the whole process over a `MainEnv`, mirroring `main`'s control
flow.  In the still-running case, the loop's poll after the exit send
observes the signal, closes the sink and returns `Ok` — one extra
iteration beyond `loopInputs`. -/
def mainProcess (e : MainEnv) : ProcessResult :=
  if ¬ e.deviceNewOk then
    ⟨false, false, false, noCapture, none, false⟩
  else if ¬ e.deviceOpened then
    ⟨false, false, false, noCapture, none, false⟩
  else if ¬ e.sinkOpenOk then
    ⟨true, true, true, noCapture, none, false⟩
  else
    let r := runCapture e.loopInputs
    match r.outcome with
    | .running =>
        ⟨true, true, true,
         ⟨r.written, r.sent, r.conversions, r.closes + 1, r.iters + 1,
          .finished (Except.ok ())⟩,
         some (Except.ok ()), true⟩
    | .finished _ =>
        ⟨true, true, true, r, none, false⟩

/-!
Helper lemmas shared by the claim theorems.
-/

/-- A run consisting of successful-read iterations followed by `rest`:
the frames are all converted and sent, the width-positive ones written,
and the tail behaves as `runCapture rest`. -/
theorem runCapture_reads_append (fs : List Frame) (rest : List IterInput) :
    runCapture (fs.map IterInput.read ++ rest) =
      ⟨fs.filter (fun f => 0 < f.width) ++ (runCapture rest).written,
       fs.map (fun f => (cvtColorBGR2RGBA f).data) ++ (runCapture rest).sent,
       fs.length + (runCapture rest).conversions,
       (runCapture rest).closes,
       fs.length + (runCapture rest).iters,
       (runCapture rest).outcome⟩ := by
  induction fs with
  | nil => simp
  | cons f fs ih =>
      simp only [List.map_cons, List.cons_append, runCapture,
        List.filter_cons, List.length_cons]
      by_cases h : 0 < f.width <;> simp [h, ih] <;> omega

/-- Specialization to a run with no tail events. -/
theorem runCapture_reads (fs : List Frame) :
    runCapture (fs.map IterInput.read) =
      ⟨fs.filter (fun f => 0 < f.width),
       fs.map (fun f => (cvtColorBGR2RGBA f).data),
       fs.length, 0, fs.length, .running⟩ := by
  have h := runCapture_reads_append fs []
  simpa [runCapture] using h

/-- The sink is closed exactly when the loop has returned: zero closes
while running, one close on any finished outcome. -/
theorem runCapture_closes_spec (inputs : List IterInput) :
    (runCapture inputs).closes =
      (match (runCapture inputs).outcome with
       | .running => 0
       | .finished _ => 1) := by
  induction inputs with
  | nil => rfl
  | cons i rest ih => cases i <;> simp [runCapture, ih]

/-!
Claim theorems.
-/

/-- C1, counterexample.  The distribution channel is the plain
`std::sync::mpsc` queue of `main.rs:82`: sending frame A = `[1]` and then
frame B = `[2]` with no intervening receive leaves BOTH frames pending
(two buffered, not at most one), and the next successful receive yields
A, the OLDER frame — not B as the claim states. -/
theorem channel_newest_wins_counterexample :
    (((Channel.empty.send [1]).send [2]).tryRecv).1 = some [1] ∧
    ([1] : List Nat) ≠ [2] ∧
    ((Channel.empty.send [1]).send [2]).queue.length = 2 := by
  refine ⟨rfl, ?_, rfl⟩
  decide

/-- C1, amended.  The channel is an unbounded FIFO: sending A then B with
no intervening receive buffers both frames in order; the next receive
yields A (the oldest), the one after yields B, and no frame is ever
superseded or dropped. -/
theorem channel_fifo_order (a b : List Nat) :
    ((Channel.empty.send a).send b).queue = [a, b] ∧
    ((Channel.empty.send a).send b).tryRecv = (some a, ⟨[b]⟩) ∧
    (Channel.mk [b]).tryRecv = (some b, Channel.empty) :=
  ⟨rfl, rfl, rfl⟩

/-- C2, counterexample.  A malformed frame (reported width and height 0)
read by the capture loop IS distributed on the channel (`sent` gains an
entry), because `frame_sender.send(...)` at `main.rs:152` runs before and
independently of the width guard; only the sink write is skipped. -/
theorem malformed_frame_distributed_counterexample :
    (runCapture [IterInput.read ⟨0, 0, []⟩]).sent = [[]] ∧
    (runCapture [IterInput.read ⟨0, 0, []⟩]).written = [] := by
  decide

/-- C2, amended.  In a run of successful reads, a frame whose reported
width is non-positive is never appended to the sink (the height is not
consulted at all), but every frame — malformed or not — is still
converted and distributed on the presentation channel. -/
theorem width_guard_sink_only (fs : List Frame) :
    (runCapture (fs.map IterInput.read)).written =
      fs.filter (fun f => 0 < f.width) ∧
    (runCapture (fs.map IterInput.read)).sent.length = fs.length := by
  rw [runCapture_reads]
  exact ⟨rfl, by simp⟩

/-- C7.  In a run of successful reads, the conversion runs exactly once
per captured frame (`conversions = fs.length`), what is distributed is
exactly the converted RGBA byte stream of each frame in order, and every
frame appended to the sink is one of the original pre-conversion frames
(`out.write(&frame_bgr)` at `main.rs:155` writes the BGR frame, never
`frame_rgba`). -/
theorem convert_once_sink_preconversion (fs : List Frame) :
    (runCapture (fs.map IterInput.read)).conversions = fs.length ∧
    (runCapture (fs.map IterInput.read)).sent =
      fs.map (fun f => (cvtColorBGR2RGBA f).data) ∧
    ∀ g ∈ (runCapture (fs.map IterInput.read)).written, g ∈ fs := by
  rw [runCapture_reads]
  refine ⟨rfl, rfl, ?_⟩
  intro g hg
  exact List.mem_of_mem_filter hg

/-- C7, witness: the general theorem applied to a concrete one-frame
run. -/
theorem convert_once_sink_preconversion_witness :
    (runCapture [IterInput.read ⟨1, 1, [5, 6, 7]⟩]).conversions = 1 ∧
    (⟨1, 1, [5, 6, 7]⟩ : Frame) ∈ [(⟨1, 1, [5, 6, 7]⟩ : Frame)] :=
  ⟨(convert_once_sink_preconversion [⟨1, 1, [5, 6, 7]⟩]).1,
   (convert_once_sink_preconversion [⟨1, 1, [5, 6, 7]⟩]).2.2
     ⟨1, 1, [5, 6, 7]⟩ (by decide)⟩

/-- C3.  (a) On every exit path of the capture loop — exit signal, read
error, conversion error or send error — the sink is closed exactly once;
(b) while the loop is still running the sink has never been closed (so
the single close happens at exit, never twice); (c) a pending shutdown
signal is honored within one further iteration: after any number of
normal iterations, the iteration that polls the signal breaks at once,
with exactly one close and a successful result. -/
theorem sink_closed_once_on_exit :
    (∀ (inputs : List IterInput) (r : Except Unit Unit),
        (runCapture inputs).outcome = .finished r →
        (runCapture inputs).closes = 1) ∧
    (∀ inputs : List IterInput,
        (runCapture inputs).outcome = .running →
        (runCapture inputs).closes = 0) ∧
    (∀ (fs : List Frame) (rest : List IterInput),
        runCapture (fs.map IterInput.read ++ (IterInput.exitSignal :: rest)) =
          ⟨fs.filter (fun f => 0 < f.width),
           fs.map (fun f => (cvtColorBGR2RGBA f).data),
           fs.length, 1, fs.length + 1, .finished (Except.ok ())⟩) := by
  refine ⟨?_, ?_, ?_⟩
  · intro inputs r h
    rw [runCapture_closes_spec, h]
  · intro inputs h
    rw [runCapture_closes_spec, h]
  · intro fs rest
    rw [runCapture_reads_append]
    simp [runCapture]

/-- C3, witness: concrete applications — a read error closes the sink
once; an unfinished run has closed it zero times; one normal frame then
an exit signal ends the run at iteration 2 with one close. -/
theorem sink_closed_once_on_exit_witness :
    (runCapture [IterInput.readErr]).closes = 1 ∧
    (runCapture [IterInput.read ⟨1, 1, [9, 8, 7]⟩]).closes = 0 ∧
    runCapture [IterInput.read ⟨1, 1, [9, 8, 7]⟩, IterInput.exitSignal] =
      ⟨[⟨1, 1, [9, 8, 7]⟩], [[7, 8, 9, 255]], 1, 1, 2, .finished (Except.ok ())⟩ := by
  refine ⟨sink_closed_once_on_exit.1 [IterInput.readErr] (Except.error ()) rfl,
          sink_closed_once_on_exit.2.1 [IterInput.read ⟨1, 1, [9, 8, 7]⟩] rfl,
          ?_⟩
  have h := sink_closed_once_on_exit.2.2 [⟨1, 1, [9, 8, 7]⟩] []
  simpa using h

/-- C8.  A `try_recv` on an empty distribution channel does not block or
fail (the render closure returns normally), leaves the working buffer
byte-identical, and the produced image redisplays the previous buffer
contents unchanged at the fixed dimensions. -/
theorem empty_recv_keeps_buffer (w h : Nat) (s : RenderState)
    (hempty : s.chan.queue = []) :
    render w h s = some (s, ⟨w, h, s.frameData⟩) := by
  obtain ⟨⟨q⟩, buf⟩ := s
  subst hempty
  rfl

/-- C8, witness: the theorem at a concrete empty-channel state. -/
theorem empty_recv_keeps_buffer_witness :
    render 1 1 ⟨Channel.empty, [3, 1, 4, 1]⟩ =
      some (⟨Channel.empty, [3, 1, 4, 1]⟩, ⟨1, 1, [3, 1, 4, 1]⟩) :=
  empty_recv_keeps_buffer 1 1 ⟨Channel.empty, [3, 1, 4, 1]⟩ rfl

/-- C9.  When the working buffer has the fixed size `w*h*4` and the next
pending frame's byte length differs from it, the render tick panics
(`copy_from_slice` length mismatch, modelled as `none`): no partial or
oversized copy is ever written into the buffer. -/
theorem size_mismatch_panics (w h : Nat) (buf bytes : List Nat)
    (rest : List (List Nat))
    (hbuf : buf.length = w * h * 4) (hbytes : bytes.length ≠ w * h * 4) :
    render w h ⟨⟨bytes :: rest⟩, buf⟩ = none := by
  simp [render, Channel.tryRecv, copyFromSlice, hbuf, hbytes]

/-- C9, witness: a 1×1 session (4-byte buffer) receiving an empty frame
panics. -/
theorem size_mismatch_panics_witness :
    render 1 1 ⟨⟨[[]]⟩, [0, 0, 0, 0]⟩ = none :=
  size_mismatch_panics 1 1 [0, 0, 0, 0] [] [] rfl (by decide)

/-- C10.  Before any frame has been received, every render tick
succeeds, leaves the presentation state in its initial configuration,
and returns an image of the fixed camera resolution whose pixel bytes
are all zero (the zero-initialized working buffer). -/
theorem initial_ticks_all_zero (w h n : Nat) :
    renderTicks w h n (initRenderState w h) = some (initRenderState w h) ∧
    render w h (initRenderState w h) =
      some (initRenderState w h, ⟨w, h, List.replicate (w * h * 4) 0⟩) := by
  refine ⟨?_, rfl⟩
  induction n with
  | zero => rfl
  | succ n ih =>
      simpa [renderTicks, render, initRenderState, initFrameData,
        Channel.tryRecv, Channel.empty] using ih

/-- C4, counterexample.  Device and sink open fine, one good frame, then
a read error ends the capture loop with `Err`.  The loop's `Err` outcome
drops `exit_receiver`, so `exit_sender.send(())?` in `main` fails after
window close: the process exits with a FAILURE status (not success as
claimed) and the join diagnostic is never printed (the error is not
surfaced). -/
theorem midsession_error_counterexample :
    (runCapture [IterInput.read ⟨2, 2, []⟩, IterInput.readErr]).outcome =
      .finished (Except.error ()) ∧
    (mainProcess ⟨true, true, true,
      [IterInput.read ⟨2, 2, []⟩, IterInput.readErr]⟩).exitOk = false ∧
    (mainProcess ⟨true, true, true,
      [IterInput.read ⟨2, 2, []⟩, IterInput.readErr]⟩).joinDiagnostic = none := by
  decide

/-- C4, amended.  When the capture loop terminates with a mid-session
error, its `exit_receiver` is dropped, so the controller's
`exit_sender.send(())?` fails after window close; `main` propagates that
failure: the process exits with a failure status and never surfaces the
loop's result as the join diagnostic.  The sink is still closed exactly
once (by the loop's own exit path). -/
theorem midsession_error_shutdown (e : MainEnv) (r : Except Unit Unit)
    (h1 : e.deviceNewOk = true) (h2 : e.deviceOpened = true)
    (h3 : e.sinkOpenOk = true)
    (h4 : (runCapture e.loopInputs).outcome = .finished r) :
    (mainProcess e).exitOk = false ∧
    (mainProcess e).joinDiagnostic = none ∧
    (mainProcess e).capture.closes = 1 := by
  have hc : (runCapture e.loopInputs).closes = 1 := by
    rw [runCapture_closes_spec, h4]
  simp [mainProcess, h1, h2, h3, h4, hc]

/-- C4, witness: the amended theorem at a concrete run whose only
iteration is a read error. -/
theorem midsession_error_shutdown_witness :
    (mainProcess ⟨true, true, true, [IterInput.readErr]⟩).exitOk = false ∧
    (mainProcess ⟨true, true, true, [IterInput.readErr]⟩).joinDiagnostic = none ∧
    (mainProcess ⟨true, true, true, [IterInput.readErr]⟩).capture.closes = 1 :=
  midsession_error_shutdown ⟨true, true, true, [IterInput.readErr]⟩
    (Except.error ()) rfl rfl rfl rfl

/-- C5, counterexample.  With the device open but the sink failing to
open, the window IS still shown: `VideoWriter::new(...).expect(...)`
panics only the spawned capture thread (`main.rs:129-137`), while the
main thread proceeds to `window.run()` unconditionally — the program
does not abort before the UI as the claim states. -/
theorem sink_failure_counterexample :
    (mainProcess ⟨true, true, false, [IterInput.exitSignal]⟩).windowShown
      = true := by
  decide

/-- C5, amended.  A sink-open failure is not a fatal startup error of the
device-open tier: it panics the capture thread before any frame is
processed (nothing is ever sent or written), but the window is still
created and shown; `main` only observes the failure after window close,
when its exit-signal send fails, and the process then exits with a
failure status and no join diagnostic. -/
theorem sink_failure_window_still_shown (e : MainEnv)
    (h1 : e.deviceNewOk = true) (h2 : e.deviceOpened = true)
    (h3 : e.sinkOpenOk = false) :
    mainProcess e = ⟨true, true, true, noCapture, none, false⟩ := by
  simp [mainProcess, h1, h2, h3]

/-- C5, witness: the amended theorem at a concrete environment. -/
theorem sink_failure_window_still_shown_witness :
    mainProcess ⟨true, true, false, []⟩ =
      ⟨true, true, true, noCapture, none, false⟩ :=
  sink_failure_window_still_shown ⟨true, true, false, []⟩ rfl rfl rfl

/-- C6, counterexample.  The claim's second half — "otherwise the
process proceeds and its exit code is success" — fails: here the device
opens fine (`deviceNewOk` and `deviceOpened` both hold) yet a mid-session
conversion error makes the exit status a failure. -/
theorem device_open_gate_counterexample :
    (mainProcess ⟨true, true, true, [IterInput.cvtErr]⟩).threadSpawned
      = true ∧
    (mainProcess ⟨true, true, true, [IterInput.cvtErr]⟩).exitOk = false := by
  decide

/-- C6, amended.  If the capture device fails to open (constructor error
or `is_opened` false), the process terminates immediately with a fatal
diagnostic: no thread is spawned, the `VideoWriter` (output file) is
never even attempted, and the window is never shown.  If instead the
device opens, the sink opens, and the capture loop is still running at
window close, the process exits with a success status, having closed the
sink once and printed the join diagnostic. -/
theorem device_open_gate (e : MainEnv) :
    ((e.deviceNewOk = false ∨ e.deviceOpened = false) →
      mainProcess e = ⟨false, false, false, noCapture, none, false⟩) ∧
    (e.deviceNewOk = true → e.deviceOpened = true → e.sinkOpenOk = true →
      (runCapture e.loopInputs).outcome = .running →
      (mainProcess e).exitOk = true ∧
      (mainProcess e).capture.closes = 1 ∧
      (mainProcess e).joinDiagnostic = some (Except.ok ())) := by
  constructor
  · intro h
    by_cases hd : e.deviceNewOk
    · rcases h with h | h
      · rw [h] at hd; cases hd
      · simp [mainProcess, hd, h]
    · simp [mainProcess, hd]
  · intro h1 h2 h3 h4
    have hc : (runCapture e.loopInputs).closes = 0 := by
      rw [runCapture_closes_spec, h4]
    simp [mainProcess, h1, h2, h3, h4, hc]

/-- C6, witness: a failed device open aborts everything; a clean run with
no pre-close events exits successfully. -/
theorem device_open_gate_witness :
    mainProcess ⟨false, true, true, []⟩ =
      ⟨false, false, false, noCapture, none, false⟩ ∧
    ((mainProcess ⟨true, true, true, []⟩).exitOk = true ∧
     (mainProcess ⟨true, true, true, []⟩).capture.closes = 1 ∧
     (mainProcess ⟨true, true, true, []⟩).joinDiagnostic =
       some (Except.ok ())) :=
  ⟨(device_open_gate ⟨false, true, true, []⟩).1 (Or.inl rfl),
   (device_open_gate ⟨true, true, true, []⟩).2 rfl rfl rfl rfl⟩

end SlintCv
